import Mathlib

/-!
Verification of the fitness-tracker module (`homework.py`).

The module computes distance, mean speed and spent calories for three
workout variants (Running, SportsWalking, Swimming), dispatches a
three-letter tag to the matching constructor, and renders a fixed-template
summary line.

Embedding choices:
* All numeric fields are modelled as rationals (`ℚ`); the Python code uses
  int/float arithmetic with no rounding until display.
* Python division raises `ZeroDivisionError` when the divisor is zero, so
  each division whose divisor is a runtime value is modelled by `pydiv`,
  returning `Option ℚ` (`none` = the fault propagates to the caller).
  Divisions by the nonzero class constants (`M_IN_KM = 1000`,
  `SM_IN_M = 100`) are plain rational divisions.
* The class hierarchy is modelled as an inductive with one constructor per
  concrete class; method dispatch is a match on the constructor.
-/

namespace Homework

/-- Python division: raises (here: `none`) when the divisor is zero. -/
def pydiv (a b : ℚ) : Option ℚ := if b = 0 then none else some (a / b)

/-- The `InfoMessage` dataclass: five fields of a workout summary. -/
structure InfoMessage where
  training_type : String
  duration : ℚ
  distance : ℚ
  speed : ℚ
  calories : ℚ
deriving DecidableEq

/-- The concrete training classes: `Running`, `SportsWalking` (extra field
`height`), `Swimming` (extra fields `length_pool`, `count_pool`). -/
inductive Training where
  | running (action duration weight : ℚ)
  | sportsWalking (action duration weight height : ℚ)
  | swimming (action duration weight length_pool count_pool : ℚ)
deriving DecidableEq

namespace Training

/-- `Training.M_IN_KM = 1000`. -/
def M_IN_KM : ℚ := 1000

/-- `Training.MINUTES_IN_HOUR = 60`. -/
def MINUTES_IN_HOUR : ℚ := 60

/-- `LEN_STEP`: 0.65 on the base class, overridden to 1.38 by `Swimming`. -/
def LEN_STEP : Training → ℚ
  | .swimming .. => 1.38
  | _ => 0.65

/-- The `action` field (shared by all variants). -/
def action : Training → ℚ
  | .running a _ _ => a
  | .sportsWalking a _ _ _ => a
  | .swimming a _ _ _ _ => a

/-- The `duration` field (shared by all variants). -/
def duration : Training → ℚ
  | .running _ d _ => d
  | .sportsWalking _ d _ _ => d
  | .swimming _ d _ _ _ => d

/-- The `weight` field (shared by all variants). -/
def weight : Training → ℚ
  | .running _ _ w => w
  | .sportsWalking _ _ w _ => w
  | .swimming _ _ w _ _ => w

/-- `Training.get_distance`: `action * LEN_STEP / M_IN_KM`. -/
def get_distance (t : Training) : ℚ := t.action * t.LEN_STEP / M_IN_KM

/-- `get_mean_speed`: base formula `get_distance() / duration`; `Swimming`
overrides it with `length_pool * count_pool / M_IN_KM / duration`. -/
def get_mean_speed : Training → Option ℚ
  | .swimming _ d _ lp cp => pydiv (lp * cp / M_IN_KM) d
  | t => pydiv t.get_distance t.duration

/-- `Running.CALORIES_MEAN_SPEED_MULTIPLIER = 18`. -/
def CALORIES_MEAN_SPEED_MULTIPLIER : ℚ := 18

/-- `Running.CALORIES_MEAN_SPEED_SHIFT = 1.79`. -/
def CALORIES_MEAN_SPEED_SHIFT : ℚ := 1.79

/-- `SportsWalking.WEIGHT_MULTIPLAYER = 0.035`. -/
def WEIGHT_MULTIPLAYER : ℚ := 0.035

/-- `SportsWalking.CALORIES_MULTIPLAYER = 0.029`. -/
def CALORIES_MULTIPLAYER : ℚ := 0.029

/-- `SportsWalking.KM_H_IN_M_S = 0.278`. -/
def KM_H_IN_M_S : ℚ := 0.278

/-- `SportsWalking.SM_IN_M = 100`. -/
def SM_IN_M : ℚ := 100

/-- `Swimming.OFFSET_SPEED = 1.1`. -/
def OFFSET_SPEED : ℚ := 1.1

/-- `Swimming.SPEED_MULTIPLAYER = 2`. -/
def SPEED_MULTIPLAYER : ℚ := 2

/-- `get_spent_calories`, one formula per concrete class; the base class
raises `NotImplementedError` and is never instantiated. -/
def get_spent_calories : Training → Option ℚ
  | t@(.running _ _ _) => do
      let ms ← t.get_mean_speed
      let minutes := t.duration * MINUTES_IN_HOUR
      pure ((CALORIES_MEAN_SPEED_MULTIPLIER * ms + CALORIES_MEAN_SPEED_SHIFT)
        * t.weight / M_IN_KM * minutes)
  | t@(.sportsWalking _ _ _ h) => do
      let ms ← t.get_mean_speed
      let avg_speed := ms * KM_H_IN_M_S
      let height_in_m := h / SM_IN_M
      let ratio ← pydiv (avg_speed ^ 2) height_in_m
      pure ((WEIGHT_MULTIPLAYER * t.weight
        + ratio * CALORIES_MULTIPLAYER * t.weight)
        * t.duration * MINUTES_IN_HOUR)
  | t@(.swimming _ _ _ _ _) => do
      let ms ← t.get_mean_speed
      let multiplayer := SPEED_MULTIPLAYER * t.weight * t.duration
      pure ((ms + OFFSET_SPEED) * multiplayer)

/-- `self.__class__.__name__` of each concrete class. -/
def className : Training → String
  | .running .. => "Running"
  | .sportsWalking .. => "SportsWalking"
  | .swimming .. => "Swimming"

/-- `Training.show_training_info`: builds the `InfoMessage` from the class
name, the duration field and the three computed metrics. -/
def show_training_info (t : Training) : Option InfoMessage := do
  let speed ← t.get_mean_speed
  let calories ← t.get_spent_calories
  pure ⟨t.className, t.duration, t.get_distance, speed, calories⟩

end Training

/-- Errors `read_package` can surface: the explicit `ValueError` for an
unknown tag, and Python's `TypeError` when the positional argument count
does not match the constructor. -/
inductive ReadError where
  | unknownWorkoutType (msg : String)
  | arityMismatch
deriving DecidableEq

/-- `read_package`: looks the tag up in the `training_types` dict and
applies the constructor positionally to `data`; an unknown tag raises
`ValueError('Неизвестный тип ренировки')`. -/
def read_package (workout_type : String) (data : List ℚ) :
    Except ReadError Training :=
  if workout_type = "SWM" then
    match data with
    | [a, d, w, lp, cp] => .ok (.swimming a d w lp cp)
    | _ => .error .arityMismatch
  else if workout_type = "RUN" then
    match data with
    | [a, d, w] => .ok (.running a d w)
    | _ => .error .arityMismatch
  else if workout_type = "WLK" then
    match data with
    | [a, d, w, h] => .ok (.sportsWalking a d w h)
    | _ => .error .arityMismatch
  else .error (.unknownWorkoutType "Неизвестный тип ренировки")

/-- The character for a single decimal digit `n < 10`. -/
def digitChar (n : ℕ) : Char := Char.ofNat (48 + n)

/-- Renders `n % 1000` as exactly three decimal digits (the fractional
part of a `0.3f` conversion). -/
def pad3 (n : ℕ) : String :=
  String.mk [digitChar (n / 100 % 10), digitChar (n / 10 % 10),
    digitChar (n % 10)]

/-- Round to the nearest integer, ties to even, as Python float
formatting does. -/
def roundHalfEven (q : ℚ) : ℤ :=
  if Int.fract q < 1 / 2 then ⌊q⌋
  else if 1 / 2 < Int.fract q then ⌊q⌋ + 1
  else if 2 ∣ ⌊q⌋ then ⌊q⌋ else ⌊q⌋ + 1

/-- Python's `{x:0.3f}` conversion: the value rounded to three decimal
places, a minus sign for negative inputs, exactly three digits after the
decimal point. -/
def formatFixed3 (q : ℚ) : String :=
  let m := (roundHalfEven (q * 1000)).natAbs
  (if q < 0 then "-" else "") ++ toString (m / 1000) ++ "." ++ pad3 (m % 1000)

/-- `InfoMessage.get_message`: the fixed `MESSAGE` template with the five
fields substituted, the four numeric ones via `0.3f`. -/
def InfoMessage.get_message (m : InfoMessage) : String :=
  "Тип тренировки: " ++ m.training_type
    ++ "; Длительность: " ++ formatFixed3 m.duration
    ++ " ч.; Дистанция: " ++ formatFixed3 m.distance
    ++ " км; Ср. скорость: " ++ formatFixed3 m.speed
    ++ " км/ч; Потрачено ккал: " ++ formatFixed3 m.calories ++ "."

/-- A string consisting of some prefix, a decimal point, and exactly three
decimal digits after it. -/
def threeDecimals (s : String) : Prop :=
  ∃ a b, s = a ++ "." ++ b ∧ b.length = 3 ∧ b.toList.all Char.isDigit = true

instance {ε α : Type} [DecidableEq ε] [DecidableEq α] :
    DecidableEq (Except ε α) := fun a b =>
  match a, b with
  | .ok x, .ok y =>
      if h : x = y then .isTrue (by rw [h]) else .isFalse (by simp [h])
  | .error x, .error y =>
      if h : x = y then .isTrue (by rw [h]) else .isFalse (by simp [h])
  | .ok _, .error _ => .isFalse (by simp)
  | .error _, .ok _ => .isFalse (by simp)

namespace Training

/-- C1: for every workout built from action count `n`, duration `d` and
weight `w`, `get_distance` returns `n * step_length / 1000` with step
length 0.65 for Running and Walking and 1.38 for Swimming, and for
Running and Walking `get_mean_speed` returns `get_distance() / d`. -/
theorem C1_base_contract (n d w h lp cp : ℚ) (hd : d ≠ 0) :
    get_distance (.running n d w) = n * 0.65 / 1000
  ∧ get_distance (.sportsWalking n d w h) = n * 0.65 / 1000
  ∧ get_distance (.swimming n d w lp cp) = n * 1.38 / 1000
  ∧ get_mean_speed (.running n d w)
      = some (get_distance (.running n d w) / d)
  ∧ get_mean_speed (.sportsWalking n d w h)
      = some (get_distance (.sportsWalking n d w h) / d) := by
  refine ⟨rfl, rfl, rfl, ?_, ?_⟩ <;>
    simp [get_mean_speed, pydiv, hd, duration]

theorem C1_base_contract_witness :
    (2 : ℚ) ≠ 0
  ∧ (get_distance (.running 3 2 5) = 3 * 0.65 / 1000
  ∧ get_distance (.sportsWalking 3 2 5 7) = 3 * 0.65 / 1000
  ∧ get_distance (.swimming 3 2 5 11 13) = 3 * 1.38 / 1000
  ∧ get_mean_speed (.running 3 2 5)
      = some (get_distance (.running 3 2 5) / 2)
  ∧ get_mean_speed (.sportsWalking 3 2 5 7)
      = some (get_distance (.sportsWalking 3 2 5 7) / 2)) :=
  ⟨by norm_num, C1_base_contract 3 2 5 7 11 13 (by norm_num)⟩

/-- C2: for every Running workout with weight `w` and duration `d`,
`get_spent_calories` returns
`(18 * mean_speed + 1.79) * w / 1000 * (d * 60)` where `mean_speed` is
the base mean speed `get_distance() / d`. -/
theorem C2_running_calories (n d w : ℚ) (hd : d ≠ 0) :
    get_spent_calories (.running n d w)
      = some ((18 * (get_distance (.running n d w) / d) + 1.79)
          * w / 1000 * (d * 60)) := by
  simp [get_spent_calories, get_mean_speed, pydiv, hd, duration, weight,
    M_IN_KM, MINUTES_IN_HOUR, CALORIES_MEAN_SPEED_MULTIPLIER,
    CALORIES_MEAN_SPEED_SHIFT]

theorem C2_running_calories_witness :
    (1 : ℚ) ≠ 0
  ∧ get_spent_calories (.running 15000 1 75)
      = some ((18 * (get_distance (.running 15000 1 75) / 1) + 1.79)
          * 75 / 1000 * (1 * 60)) :=
  ⟨by norm_num, C2_running_calories 15000 1 75 (by norm_num)⟩

/-- C3: for every SportsWalking workout with weight `w`, duration `d`
(hours) and height `h` (cm), `get_spent_calories` returns
`(0.035*w + ((mean_speed * 0.278)^2 / (h / 100)) * 0.029*w) * (d * 60)`
where `mean_speed` is the base mean speed. -/
theorem C3_walking_calories (n d w h : ℚ) (hd : d ≠ 0) (hh : h ≠ 0) :
    get_spent_calories (.sportsWalking n d w h)
      = some ((0.035 * w
          + (((get_distance (.sportsWalking n d w h) / d) * 0.278) ^ 2
              / (h / 100)) * 0.029 * w) * (d * 60)) := by
  have hh' : h / SM_IN_M ≠ 0 := by
    simp [SM_IN_M]
    exact hh
  simp [get_spent_calories, get_mean_speed, pydiv, hd, hh, hh', duration,
    weight, MINUTES_IN_HOUR, WEIGHT_MULTIPLAYER, CALORIES_MULTIPLAYER,
    KM_H_IN_M_S, SM_IN_M]
  ring

theorem C3_walking_calories_witness :
    ((1 : ℚ) ≠ 0 ∧ (180 : ℚ) ≠ 0)
  ∧ get_spent_calories (.sportsWalking 9000 1 75 180)
      = some ((0.035 * 75
          + (((get_distance (.sportsWalking 9000 1 75 180) / 1) * 0.278) ^ 2
              / (180 / 100)) * 0.029 * 75) * (1 * 60)) :=
  ⟨⟨by norm_num, by norm_num⟩,
    C3_walking_calories 9000 1 75 180 (by norm_num) (by norm_num)⟩

/-- C4: for every Swimming workout with pool length `lp`, lap count `cp`,
duration `d` and weight `w`: `get_mean_speed` returns
`lp * cp / 1000 / d` (overriding the base formula), `get_spent_calories`
returns `(mean_speed + 1.1) * 2 * w * d`, and `get_distance` still uses
the step-length formula with step length 1.38. -/
theorem C4_swimming (n d w lp cp : ℚ) (hd : d ≠ 0) :
    get_mean_speed (.swimming n d w lp cp) = some (lp * cp / 1000 / d)
  ∧ get_spent_calories (.swimming n d w lp cp)
      = some ((lp * cp / 1000 / d + 1.1) * 2 * w * d)
  ∧ get_distance (.swimming n d w lp cp) = n * 1.38 / 1000 := by
  refine ⟨by simp [get_mean_speed, pydiv, hd, M_IN_KM], ?_, rfl⟩
  simp [get_spent_calories, get_mean_speed, pydiv, hd, duration, weight,
    M_IN_KM, OFFSET_SPEED, SPEED_MULTIPLAYER]
  ring

theorem C4_swimming_witness :
    (1 : ℚ) ≠ 0
  ∧ (get_mean_speed (.swimming 720 1 80 25 40)
      = some (25 * 40 / 1000 / 1)
  ∧ get_spent_calories (.swimming 720 1 80 25 40)
      = some ((25 * 40 / 1000 / 1 + 1.1) * 2 * 80 * 1)
  ∧ get_distance (.swimming 720 1 80 25 40) = 720 * 1.38 / 1000) :=
  ⟨by norm_num, C4_swimming 720 1 80 25 40 (by norm_num)⟩

end Training

/-- C5: every tag outside SWM, RUN, WLK fails with the domain-specific
unknown-workout-type `ValueError` (never a generic key-lookup error); each
of the three valid tags with a matching-arity field list yields a workout
of the corresponding variant. -/
theorem C5_dispatcher (s : String) (data : List ℚ) (a d w h lp cp : ℚ)
    (hs : s ≠ "SWM" ∧ s ≠ "RUN" ∧ s ≠ "WLK") :
    read_package s data
      = .error (.unknownWorkoutType "Неизвестный тип ренировки")
  ∧ read_package "RUN" [a, d, w] = .ok (.running a d w)
  ∧ read_package "WLK" [a, d, w, h] = .ok (.sportsWalking a d w h)
  ∧ read_package "SWM" [a, d, w, lp, cp] = .ok (.swimming a d w lp cp) := by
  refine ⟨?_, rfl, rfl, rfl⟩
  simp [read_package, hs.1, hs.2.1, hs.2.2]

theorem C5_dispatcher_witness :
    ("XYZ" ≠ "SWM" ∧ "XYZ" ≠ "RUN" ∧ "XYZ" ≠ "WLK")
  ∧ (read_package "XYZ" [1, 1, 1]
      = .error (.unknownWorkoutType "Неизвестный тип ренировки")
  ∧ read_package "RUN" [1, 2, 3] = .ok (.running 1 2 3)
  ∧ read_package "WLK" [1, 2, 3, 4] = .ok (.sportsWalking 1 2 3 4)
  ∧ read_package "SWM" [1, 2, 3, 4, 5] = .ok (.swimming 1 2 3 4 5)) :=
  ⟨by decide,
    C5_dispatcher "XYZ" [1, 1, 1] 1 2 3 4 4 5 (by decide)⟩

/-- Evaluation of the three metrics on the concrete RUN example record. -/
lemma running_concrete :
    Training.get_distance (.running 15000 1 75) = 9.75
  ∧ Training.get_mean_speed (.running 15000 1 75) = some 9.75
  ∧ Training.get_spent_calories (.running 15000 1 75) = some 797.805 := by
  refine ⟨?_, ?_, ?_⟩ <;>
    norm_num [Training.get_spent_calories, Training.get_mean_speed,
      Training.get_distance, pydiv, Training.duration, Training.weight,
      Training.action, Training.LEN_STEP, Training.M_IN_KM,
      Training.MINUTES_IN_HOUR, Training.CALORIES_MEAN_SPEED_MULTIPLIER,
      Training.CALORIES_MEAN_SPEED_SHIFT]

/-- C7 counterexample: the claim asserts the RUN scenario's calories are
approximately 798.86, but the code yields exactly 797.805, which differs
from 798.86 by more than 1; no value near 798.86 is returned. -/
theorem C7_counterexample :
    read_package "RUN" [15000, 1, 75] = .ok (.running 15000 1 75)
  ∧ Training.get_spent_calories (.running 15000 1 75) = some 797.805
  ∧ ¬ (∃ q, Training.get_spent_calories (.running 15000 1 75) = some q
        ∧ |q - 798.86| < 1) := by
  refine ⟨rfl, running_concrete.2.2, ?_⟩
  rintro ⟨q, hq, hlt⟩
  rw [running_concrete.2.2] at hq
  rw [← Option.some.inj hq] at hlt
  norm_num [abs_lt] at hlt

/-- C7 (amended): `resolve("RUN", [15000, 1, 75])` yields a Running
workout whose distance is 15000*0.65/1000 = 9.75 km, whose mean speed is
9.75 km/h, and whose calories equal
(18*9.75+1.79)*75/1000*60 = 797.805 exactly. -/
theorem C7_run_scenario :
    read_package "RUN" [15000, 1, 75] = .ok (.running 15000 1 75)
  ∧ Training.get_distance (.running 15000 1 75) = 9.75
  ∧ Training.get_mean_speed (.running 15000 1 75) = some 9.75
  ∧ Training.get_spent_calories (.running 15000 1 75)
      = some ((18 * 9.75 + 1.79) * 75 / 1000 * 60)
  ∧ ((18 : ℚ) * 9.75 + 1.79) * 75 / 1000 * 60 = 797.805 := by
  have h : ((18 : ℚ) * 9.75 + 1.79) * 75 / 1000 * 60 = 797.805 := by
    norm_num
  exact ⟨rfl, running_concrete.1, running_concrete.2.1,
    by rw [running_concrete.2.2, h], h⟩

/-- C8: for every Running record satisfying the duration invariant,
`get_spent_calories` returns a strictly positive value whenever the mean
speed is positive and the weight is positive. -/
theorem C8_running_calories_pos (n d w s : ℚ) (hd : 0 < d)
    (hms : Training.get_mean_speed (.running n d w) = some s)
    (hs : 0 < s) (hw : 0 < w) :
    ∃ c, Training.get_spent_calories (.running n d w) = some c ∧ 0 < c := by
  have hd' : d ≠ 0 := ne_of_gt hd
  refine ⟨(Training.CALORIES_MEAN_SPEED_MULTIPLIER * s
      + Training.CALORIES_MEAN_SPEED_SHIFT)
      * w / Training.M_IN_KM * (d * Training.MINUTES_IN_HOUR), ?_, ?_⟩
  · simp [Training.get_spent_calories, hms, Training.duration,
      Training.weight]
  · have h1 : 0 < Training.CALORIES_MEAN_SPEED_MULTIPLIER * s
        + Training.CALORIES_MEAN_SPEED_SHIFT := by
      unfold Training.CALORIES_MEAN_SPEED_MULTIPLIER
        Training.CALORIES_MEAN_SPEED_SHIFT
      positivity
    have h2 : (0 : ℚ) < Training.M_IN_KM := by norm_num [Training.M_IN_KM]
    have h3 : (0 : ℚ) < Training.MINUTES_IN_HOUR := by
      norm_num [Training.MINUTES_IN_HOUR]
    positivity

/-- C9: the divisions are unguarded: with a positive duration (and, for
walking, a positive height) every runtime division has a nonzero divisor
and the computation succeeds; with duration 0 or height 0 nothing detects
the condition and the division-by-zero fault propagates to the caller
(modelled as `none`). -/
theorem C9_unguarded_divisions (n d w h lp cp : ℚ) :
    (0 < d →
      (Training.get_mean_speed (.running n d w)).isSome = true
      ∧ (Training.get_mean_speed (.sportsWalking n d w h)).isSome = true
      ∧ (Training.get_mean_speed (.swimming n d w lp cp)).isSome = true)
  ∧ (0 < d → 0 < h →
      (Training.get_spent_calories (.sportsWalking n d w h)).isSome = true)
  ∧ (d = 0 →
      Training.get_mean_speed (.running n d w) = none
      ∧ Training.get_mean_speed (.sportsWalking n d w h) = none
      ∧ Training.get_mean_speed (.swimming n d w lp cp) = none
      ∧ Training.get_spent_calories (.sportsWalking n d w h) = none)
  ∧ (h = 0 →
      Training.get_spent_calories (.sportsWalking n d w h) = none) := by
  refine ⟨fun hd => ?_, fun hd hh => ?_, fun hd => ?_, fun hh => ?_⟩
  · have hd' : d ≠ 0 := ne_of_gt hd
    refine ⟨?_, ?_, ?_⟩ <;>
      simp [Training.get_mean_speed, pydiv, hd', Training.duration]
  · have hd' : d ≠ 0 := ne_of_gt hd
    have hh' : h ≠ 0 := ne_of_gt hh
    norm_num [Training.get_spent_calories, Training.get_mean_speed, pydiv,
      hd', hh', Training.duration, Training.SM_IN_M, div_eq_zero_iff]
  · subst hd
    refine ⟨?_, ?_, ?_, ?_⟩ <;>
      simp [Training.get_spent_calories, Training.get_mean_speed, pydiv,
        Training.duration]
  · subst hh
    cases hms : Training.get_mean_speed (.sportsWalking n d w 0) <;>
      simp [Training.get_spent_calories, hms, pydiv, Training.SM_IN_M]

theorem C9_unguarded_divisions_witness :
    (Training.get_mean_speed (.running 1 1 1)).isSome = true
  ∧ Training.get_mean_speed (.running 1 0 1) = none
  ∧ (Training.get_spent_calories (.sportsWalking 1 1 1 1)).isSome = true
  ∧ Training.get_spent_calories (.sportsWalking 1 1 1 0) = none :=
  ⟨((C9_unguarded_divisions 1 1 1 1 1 1).1 (by norm_num)).1,
    ((C9_unguarded_divisions 1 0 1 1 1 1).2.2.1 rfl).1,
    (C9_unguarded_divisions 1 1 1 1 1 1).2.1 (by norm_num) (by norm_num),
    (C9_unguarded_divisions 1 1 1 0 1 1).2.2.2 rfl⟩

theorem C8_running_calories_pos_witness :
    ((0 : ℚ) < 1
      ∧ Training.get_mean_speed (.running 15000 1 75) = some 9.75
      ∧ (0 : ℚ) < 9.75 ∧ (0 : ℚ) < 75)
  ∧ ∃ c, Training.get_spent_calories (.running 15000 1 75) = some c
      ∧ 0 < c :=
  ⟨⟨by norm_num, running_concrete.2.1, by norm_num, by norm_num⟩,
    C8_running_calories_pos 15000 1 75 9.75 (by norm_num)
      running_concrete.2.1 (by norm_num) (by norm_num)⟩

/-- Every digit character produced from `k < 10` passes `Char.isDigit`. -/
lemma digitChar_isDigit (k : ℕ) (hk : k < 10) : (digitChar k).isDigit = true := by
  interval_cases k <;> decide

/-- The fractional-part rendering has exactly three characters. -/
lemma pad3_length (n : ℕ) : (pad3 n).length = 3 := rfl

/-- The fractional-part rendering consists of decimal digits only. -/
lemma pad3_digits (n : ℕ) : (pad3 n).toList.all Char.isDigit = true := by
  have h1 := digitChar_isDigit (n / 100 % 10) (Nat.mod_lt _ (by norm_num))
  have h2 := digitChar_isDigit (n / 10 % 10) (Nat.mod_lt _ (by norm_num))
  have h3 := digitChar_isDigit (n % 10) (Nat.mod_lt _ (by norm_num))
  simp [pad3, String.toList, h1, h2, h3]

/-- The `0.3f` conversion always ends in a decimal point followed by
exactly three decimal digits. -/
lemma formatFixed3_threeDecimals (q : ℚ) : threeDecimals (formatFixed3 q) :=
  ⟨(if q < 0 then "-" else "")
      ++ toString ((roundHalfEven (q * 1000)).natAbs / 1000),
    pad3 ((roundHalfEven (q * 1000)).natAbs % 1000), rfl, rfl, pad3_digits _⟩

/-- C6: `get_message` substitutes all five fields into the fixed template,
with `duration`, `distance`, `speed` and `calories` each rendered with a
decimal point followed by exactly three decimal digits, and the kind
substituted verbatim. -/
theorem C6_get_message (m : InfoMessage) :
    m.get_message = "Тип тренировки: " ++ m.training_type
      ++ "; Длительность: " ++ formatFixed3 m.duration
      ++ " ч.; Дистанция: " ++ formatFixed3 m.distance
      ++ " км; Ср. скорость: " ++ formatFixed3 m.speed
      ++ " км/ч; Потрачено ккал: " ++ formatFixed3 m.calories ++ "."
  ∧ threeDecimals (formatFixed3 m.duration)
  ∧ threeDecimals (formatFixed3 m.distance)
  ∧ threeDecimals (formatFixed3 m.speed)
  ∧ threeDecimals (formatFixed3 m.calories) :=
  ⟨rfl, formatFixed3_threeDecimals _, formatFixed3_threeDecimals _,
    formatFixed3_threeDecimals _, formatFixed3_threeDecimals _⟩

/-- The summary's kind field always equals the class name of the workout
the summary was built from. -/
lemma show_training_info_kind (t : Training) (m : InfoMessage)
    (h : Training.show_training_info t = some m) :
    m.training_type = Training.className t := by
  simp only [Training.show_training_info, Option.bind_eq_some,
    Option.pure_def, Option.some.injEq, bind] at h
  obtain ⟨s, hs, c, hc, hm⟩ := h
  rw [← hm]

/-- A successful RUN dispatch yields a workout of class `Running`. -/
lemma read_package_run_className (data : List ℚ) (t : Training)
    (h : read_package "RUN" data = .ok t) :
    Training.className t = "Running" := by
  simp only [read_package] at h
  rcases data with _ | ⟨a, _ | ⟨d, _ | ⟨w, _ | ⟨x, rest⟩⟩⟩⟩ <;> simp_all
  rw [← h]
  rfl

/-- A successful WLK dispatch yields a workout of class `SportsWalking`. -/
lemma read_package_wlk_className (data : List ℚ) (t : Training)
    (h : read_package "WLK" data = .ok t) :
    Training.className t = "SportsWalking" := by
  simp only [read_package] at h
  rcases data with _ | ⟨a, _ | ⟨d, _ | ⟨w, _ | ⟨x, _ | ⟨y, rest⟩⟩⟩⟩⟩ <;>
    simp_all
  rw [← h]
  rfl

/-- A successful SWM dispatch yields a workout of class `Swimming`. -/
lemma read_package_swm_className (data : List ℚ) (t : Training)
    (h : read_package "SWM" data = .ok t) :
    Training.className t = "Swimming" := by
  simp only [read_package] at h
  rcases data with
    _ | ⟨a, _ | ⟨d, _ | ⟨w, _ | ⟨x, _ | ⟨y, _ | ⟨z, rest⟩⟩⟩⟩⟩⟩ <;> simp_all
  rw [← h]
  rfl

/-- C10: the kind field of every summary is the concrete class name of the
dispatched variant: "Running" for RUN, "SportsWalking" (not "Walking")
for WLK, "Swimming" for SWM. -/
theorem C10_summary_kind (data : List ℚ) (t : Training) (m : InfoMessage) :
    (read_package "RUN" data = .ok t →
      Training.show_training_info t = some m → m.training_type = "Running")
  ∧ (read_package "WLK" data = .ok t →
      Training.show_training_info t = some m →
        m.training_type = "SportsWalking")
  ∧ (read_package "SWM" data = .ok t →
      Training.show_training_info t = some m →
        m.training_type = "Swimming") := by
  refine ⟨fun hr hs => ?_, fun hr hs => ?_, fun hr hs => ?_⟩ <;>
    rw [show_training_info_kind t m hs]
  · exact read_package_run_className data t hr
  · exact read_package_wlk_className data t hr
  · exact read_package_swm_className data t hr

/-- Evaluation of the full summary on the concrete RUN example record. -/
lemma show_running_concrete :
    Training.show_training_info (.running 15000 1 75)
      = some ⟨"Running", 1, 9.75, 9.75, 797.805⟩ := by
  simp [Training.show_training_info, running_concrete.1,
    running_concrete.2.1, running_concrete.2.2, Training.className,
    Training.duration]

theorem C10_summary_kind_witness :
    (read_package "RUN" [15000, 1, 75] = .ok (.running 15000 1 75)
      ∧ Training.show_training_info (.running 15000 1 75)
          = some ⟨"Running", 1, 9.75, 9.75, 797.805⟩)
  ∧ (⟨"Running", 1, 9.75, 9.75, 797.805⟩ : InfoMessage).training_type
      = "Running" :=
  ⟨⟨rfl, show_running_concrete⟩,
    (C10_summary_kind [15000, 1, 75] (.running 15000 1 75)
        ⟨"Running", 1, 9.75, 9.75, 797.805⟩).1 rfl show_running_concrete⟩

end Homework
